import Mathlib

/-!
Verification of the dispatch core of `logger`.

A shallow embedding of `src/logger.go`.  The three backends (the standard `log`
package, a `*syslog.Writer` and an `*amqp.Channel`) are external collaborators:
each call made on them is recorded, in order, in a trace of `Event`s together
with the value the backend returned, and `Logger.log` returns that trace next
to the Go return value.

* a Go `error` is `Option Error`; `none` is `nil`;
* a Go pointer that may be `nil` is an `Option` of the handle;
* `uint` is `Nat` (only `&` with the constants 1, 2, 4 is applied to it, which
  never overflows) and `syslog.Priority`, a Go `int`, is `Int`;
* a Go `string` is a `String`, and `[]byte(s)` is the list of the bytes of its
  UTF-8 encoding.
-/

namespace logger

/-- The payload of a non-nil Go `error`. -/
abbrev Error := String

/-! ## `log/syslog` (standard library) -/

namespace syslog

/-- Go: `type Priority int`. -/
abbrev Priority := Int

/-- Go: the severity constants of `log/syslog`, `LOG_EMERG Priority = iota` onwards. -/
abbrev LOG_EMERG : Priority := 0
/-- Go: `LOG_ALERT`. -/
abbrev LOG_ALERT : Priority := 1
/-- Go: `LOG_CRIT`. -/
abbrev LOG_CRIT : Priority := 2
/-- Go: `LOG_ERR`. -/
abbrev LOG_ERR : Priority := 3
/-- Go: `LOG_WARNING`. -/
abbrev LOG_WARNING : Priority := 4
/-- Go: `LOG_NOTICE`. -/
abbrev LOG_NOTICE : Priority := 5
/-- Go: `LOG_INFO`. -/
abbrev LOG_INFO : Priority := 6
/-- Go: `LOG_DEBUG`. -/
abbrev LOG_DEBUG : Priority := 7

/-- The eight entry points of `*syslog.Writer` that take a message. -/
inductive Method
  | Debug | Info | Notice | Warning | Err | Crit | Alert | Emerg
  deriving DecidableEq

/-- The handle `*syslog.Writer` as the program sees it: eight methods, each taking the
message and returning an `error`.  A method is called at most once in a `log` call, so
its answer in the handle's current state is a function of the message. -/
structure Writer where
  Debug : String → Option Error
  Info : String → Option Error
  Notice : String → Option Error
  Warning : String → Option Error
  Err : String → Option Error
  Crit : String → Option Error
  Alert : String → Option Error
  Emerg : String → Option Error

/-- Method selection on a writer by the method's name. -/
def Writer.invoke (w : Writer) : Method → String → Option Error
  | .Debug => w.Debug
  | .Info => w.Info
  | .Notice => w.Notice
  | .Warning => w.Warning
  | .Err => w.Err
  | .Crit => w.Crit
  | .Alert => w.Alert
  | .Emerg => w.Emerg

end syslog

/-! ## `github.com/motain/amqp` (external package) -/

namespace amqp

/-- Go: `type Table map[string]interface{}`; only the empty table is ever built. -/
abbrev Table := List (String × String)

/-- Go: `Transient uint8 = 1`, the non-persistent delivery mode. -/
abbrev Transient : Nat := 1
/-- Go: `Persistent uint8 = 2`. -/
abbrev Persistent : Nat := 2

/-- The fields of `amqp.Publishing` the program sets; all others keep their zero value.
A `[]byte` is a list of bytes. -/
structure Publishing where
  Headers : Table
  ContentType : String
  ContentEncoding : String
  Body : List UInt8
  DeliveryMode : Nat
  Priority : Nat
  deriving DecidableEq

/-- The handle `*amqp.Channel` as the program sees it: `Publish(exchange, key, mandatory,
immediate, msg) error`. -/
structure Channel where
  Publish : String → String → Bool → Bool → Publishing → Option Error

end amqp

/-! ## `fmt` (standard library) -/

namespace fmt

/-- Go: the marker `fmt` appends for operands no verb has consumed,
`%!(EXTRA string=a, string=b)`; nothing when none is left. -/
def extraOperands : List String → List Char
  | [] => []
  | a :: as =>
      "%!(EXTRA ".data ++ (", ".intercalate ((a :: as).map fun s => "string=" ++ s)).data ++ [')']

/-- The fragment of `fmt.Sprintf` used by `log.Printf("[%s] [%s] %s", ...)`: the verb `%s`
with string operands (the operand is written as it is), `%%`, literal text, and Go's
markers for a missing operand (`%!s(MISSING)`), a missing verb (`%!(NOVERB)`) and surplus
operands.  Other verbs are outside the fragment (the model copies them) and nothing is
claimed about them. -/
def SprintfChars : List Char → List String → List Char
  | [], as => extraOperands as
  | '%' :: 's' :: rest, a :: as => a.data ++ SprintfChars rest as
  | '%' :: 's' :: rest, [] => "%!s(MISSING)".data ++ SprintfChars rest []
  | '%' :: '%' :: rest, as => '%' :: SprintfChars rest as
  | ['%'], as => "%!(NOVERB)".data ++ extraOperands as
  | c :: rest, as => c :: SprintfChars rest as

/-- Go: `fmt.Sprintf(format, a...)` on string operands. -/
def Sprintf (format : String) (a : List String) : String :=
  ⟨SprintfChars format.data a⟩

end fmt

/-! ## The program -/

/-- Log to classic log way. -/
abbrev GOLOG : Nat := 1
/-- Log to syslog. -/
abbrev SYSLOG : Nat := 2
/-- Log to AMQP. -/
abbrev AMQP : Nat := 4
/-- Log to all. -/
abbrev ALL : Nat := 7

/-- Logger is the basic structure for the logger.  The field `prefix` of the source is
spelled `pfx`. -/
structure Logger where
  pfx : String
  goLog : Bool
  sysLog : Option syslog.Writer
  amqpChannel : Option amqp.Channel

/-- One call made on a backend during `log`, with its arguments and, for the two fallible
backends, the `error` it returned. -/
inductive Event
  | Printf (line : String)
  | sysLog (method : syslog.Method) (message : String) (ret : Option Error)
  | Publish (exchange key : String) (mandatory immediate : Bool) (msg : amqp.Publishing)
      (ret : Option Error)
  deriving DecidableEq

/-- Init the logger prefix. -/
def Logger.Init (logger : Logger) (pfx : String) : Logger :=
  { logger with pfx := pfx }

/-- EnableGoLog should be called if you want to enable or not the GOlang logger. -/
def Logger.EnableGoLog (logger : Logger) (golog : Bool) : Logger :=
  { logger with goLog := golog }

/-- SetSyslog should be called if you want to use the syslog logging facility. -/
def Logger.SetSyslog (logger : Logger) (sysLog : Option syslog.Writer) : Logger :=
  { logger with sysLog := sysLog }

/-- SetAmqp should be called if you want to use the amqp logging facility. -/
def Logger.SetAmqp (logger : Logger) (amqpChannel : Option amqp.Channel) : Logger :=
  { logger with amqpChannel := amqpChannel }

/-- Go: the zero value `Logger{}`. -/
def Logger.zero : Logger :=
  { pfx := "", goLog := false, sysLog := none, amqpChannel := none }

/-- The calls made so far and the current value of the local variable `err`. -/
abbrev LogState := List Event × Option Error

/-- Lines 58-77 of `log`: the first `switch`, which sets `priorityString`; a value that
matches no case leaves the zero value `""`. -/
def priorityString (logPriority : syslog.Priority) : String :=
  if logPriority = syslog.LOG_DEBUG then "DEBUG"
  else if logPriority = syslog.LOG_INFO then "INFO"
  else if logPriority = syslog.LOG_NOTICE then "NOTICE"
  else if logPriority = syslog.LOG_WARNING then "WARNING"
  else if logPriority = syslog.LOG_ERR then "ERR"
  else if logPriority = syslog.LOG_CRIT then "CRIT"
  else if logPriority = syslog.LOG_ALERT then "ALERT"
  else if logPriority = syslog.LOG_EMERG then "EMERG"
  else ""

/-- Lines 79-81 of `log`: the local log. -/
def Logger.goLogStep (logger : Logger) (loggerType : Nat) (priorityString message : String)
    (st : LogState) : LogState :=
  if (loggerType &&& GOLOG) ≠ 0 ∧ logger.goLog = true then
    (st.1 ++ [Event.Printf (fmt.Sprintf "[%s] [%s] %s" [logger.pfx, priorityString, message])],
      st.2)
  else st

/-- Lines 84-101 of `log`: the second `switch`, one method of the writer per severity,
its result assigned to `err`; a value that matches no case does nothing. -/
def sysLogSwitch (w : syslog.Writer) (logPriority : syslog.Priority) (message : String)
    (st : LogState) : LogState :=
  if logPriority = syslog.LOG_DEBUG then
    (st.1 ++ [Event.sysLog .Debug message (w.Debug message)], w.Debug message)
  else if logPriority = syslog.LOG_INFO then
    (st.1 ++ [Event.sysLog .Info message (w.Info message)], w.Info message)
  else if logPriority = syslog.LOG_NOTICE then
    (st.1 ++ [Event.sysLog .Notice message (w.Notice message)], w.Notice message)
  else if logPriority = syslog.LOG_WARNING then
    (st.1 ++ [Event.sysLog .Warning message (w.Warning message)], w.Warning message)
  else if logPriority = syslog.LOG_ERR then
    (st.1 ++ [Event.sysLog .Err message (w.Err message)], w.Err message)
  else if logPriority = syslog.LOG_CRIT then
    (st.1 ++ [Event.sysLog .Crit message (w.Crit message)], w.Crit message)
  else if logPriority = syslog.LOG_ALERT then
    (st.1 ++ [Event.sysLog .Alert message (w.Alert message)], w.Alert message)
  else if logPriority = syslog.LOG_EMERG then
    (st.1 ++ [Event.sysLog .Emerg message (w.Emerg message)], w.Emerg message)
  else st

/-- Lines 83-103 of `log`: the system log. -/
def Logger.sysLogStep (logger : Logger) (loggerType : Nat) (logPriority : syslog.Priority)
    (message : String) (st : LogState) : LogState :=
  match logger.sysLog with
  | some w => if (loggerType &&& SYSLOG) ≠ 0 then sysLogSwitch w logPriority message st else st
  | none => st

/-- Lines 111-118 of `log`: the `amqp.Publishing` literal. -/
def publishing (message : String) : amqp.Publishing :=
  { Headers := [],
    ContentType := "text/plain",
    ContentEncoding := "",
    Body := message.toUTF8.data.toList,
    DeliveryMode := amqp.Transient,
    Priority := 0 }

/-- Lines 105-120 of `log`: the queue; the result of `Publish` is assigned to `err`. -/
def Logger.amqpStep (logger : Logger) (loggerType : Nat) (priorityString message : String)
    (st : LogState) : LogState :=
  match logger.amqpChannel with
  | some ch =>
      if (loggerType &&& AMQP) ≠ 0 then
        (st.1 ++ [Event.Publish "logs" priorityString false false (publishing message)
            (ch.Publish "logs" priorityString false false (publishing message))],
          ch.Publish "logs" priorityString false false (publishing message))
      else st
  | none => st

/-- Go: `func (logger *Logger) log(loggerType uint, logPriority syslog.Priority,
message string) error`.  Returns the calls made on the backends, in order, and the
returned `error`. -/
def Logger.log (logger : Logger) (loggerType : Nat) (logPriority : syslog.Priority)
    (message : String) : LogState :=
  let st : LogState := ([], none)
  let st := logger.goLogStep loggerType (priorityString logPriority) message st
  let st := logger.sysLogStep loggerType logPriority message st
  logger.amqpStep loggerType (priorityString logPriority) message st

/-! ### The sixteen public entry points

The operands `a ...interface{}` of the formatted variants have arbitrary Go types; their
type `α` and the library function `fmt.Sprintf` on them are parameters. -/

/-- Debug messages should be logged with this function. -/
def Logger.Debug (logger : Logger) (loggerType : Nat) (message : String) : LogState :=
  logger.log loggerType syslog.LOG_DEBUG message

/-- Debugf is just like a wrapper over Debug with a fmt.Sprintf(). -/
def Logger.Debugf {α : Type} (Sprintf : String → List α → String) (logger : Logger)
    (loggerType : Nat) (format : String) (a : List α) : LogState :=
  logger.Debug loggerType (Sprintf format a)

/-- Info messages should be logged with this function. -/
def Logger.Info (logger : Logger) (loggerType : Nat) (message : String) : LogState :=
  logger.log loggerType syslog.LOG_INFO message

/-- Infof is just like a wrapper over Info with a fmt.Sprintf(). -/
def Logger.Infof {α : Type} (Sprintf : String → List α → String) (logger : Logger)
    (loggerType : Nat) (format : String) (a : List α) : LogState :=
  logger.Info loggerType (Sprintf format a)

/-- Notice messages should be logged with this function. -/
def Logger.Notice (logger : Logger) (loggerType : Nat) (message : String) : LogState :=
  logger.log loggerType syslog.LOG_NOTICE message

/-- Noticef is just like a wrapper over Notice with a fmt.Sprintf(). -/
def Logger.Noticef {α : Type} (Sprintf : String → List α → String) (logger : Logger)
    (loggerType : Nat) (format : String) (a : List α) : LogState :=
  logger.Notice loggerType (Sprintf format a)

/-- Warning messages should be logged with this function. -/
def Logger.Warning (logger : Logger) (loggerType : Nat) (message : String) : LogState :=
  logger.log loggerType syslog.LOG_WARNING message

/-- Warningf is just like a wrapper over Warning with a fmt.Sprintf(). -/
def Logger.Warningf {α : Type} (Sprintf : String → List α → String) (logger : Logger)
    (loggerType : Nat) (format : String) (a : List α) : LogState :=
  logger.Warning loggerType (Sprintf format a)

/-- Err messages should be logged with this function. -/
def Logger.Err (logger : Logger) (loggerType : Nat) (message : String) : LogState :=
  logger.log loggerType syslog.LOG_ERR message

/-- Errf is just like a wrapper over Err with a fmt.Sprintf(). -/
def Logger.Errf {α : Type} (Sprintf : String → List α → String) (logger : Logger)
    (loggerType : Nat) (format : String) (a : List α) : LogState :=
  logger.Err loggerType (Sprintf format a)

/-- Crit messages should be logged with this function. -/
def Logger.Crit (logger : Logger) (loggerType : Nat) (message : String) : LogState :=
  logger.log loggerType syslog.LOG_CRIT message

/-- Critf is just like a wrapper over Crit with a fmt.Sprintf(). -/
def Logger.Critf {α : Type} (Sprintf : String → List α → String) (logger : Logger)
    (loggerType : Nat) (format : String) (a : List α) : LogState :=
  logger.Crit loggerType (Sprintf format a)

/-- Alert messages should be logged with this function. -/
def Logger.Alert (logger : Logger) (loggerType : Nat) (message : String) : LogState :=
  logger.log loggerType syslog.LOG_ALERT message

/-- Alertf is just like a wrapper over Alert with a fmt.Sprintf(). -/
def Logger.Alertf {α : Type} (Sprintf : String → List α → String) (logger : Logger)
    (loggerType : Nat) (format : String) (a : List α) : LogState :=
  logger.Alert loggerType (Sprintf format a)

/-- Emerg messages should be logged with this function. -/
def Logger.Emerg (logger : Logger) (loggerType : Nat) (message : String) : LogState :=
  logger.log loggerType syslog.LOG_EMERG message

/-- Emergf is just like a wrapper over Emerg with a fmt.Sprintf(). -/
def Logger.Emergf {α : Type} (Sprintf : String → List α → String) (logger : Logger)
    (loggerType : Nat) (format : String) (a : List α) : LogState :=
  logger.Emerg loggerType (Sprintf format a)

/-! ## Vocabulary of the specification -/

/-- The specification's severity table: each of the eight severities with its uppercase
name token and the system-log entry point that matches it. -/
def severityTable : List (syslog.Priority × String × syslog.Method) :=
  [ (syslog.LOG_DEBUG, "DEBUG", .Debug),
    (syslog.LOG_INFO, "INFO", .Info),
    (syslog.LOG_NOTICE, "NOTICE", .Notice),
    (syslog.LOG_WARNING, "WARNING", .Warning),
    (syslog.LOG_ERR, "ERR", .Err),
    (syslog.LOG_CRIT, "CRIT", .Crit),
    (syslog.LOG_ALERT, "ALERT", .Alert),
    (syslog.LOG_EMERG, "EMERG", .Emerg) ]

/-- The eight recognised severities. -/
def severities : List syslog.Priority :=
  severityTable.map Prod.fst

/-- The specification's name token of a severity value: looked up in the table, empty
for a value that is not in it. -/
def severityName (S : syslog.Priority) : String :=
  match severityTable.lookup S with
  | some entry => entry.1
  | none => ""

/-- The lines handed to the local log sink, in order. -/
def localLines : List Event → List String
  | [] => []
  | .Printf line :: es => line :: localLines es
  | _ :: es => localLines es

/-- The calls made on the system-log handle, in order: entry point and message. -/
def sysLogCalls : List Event → List (syslog.Method × String)
  | [] => []
  | .sysLog method message _ :: es => (method, message) :: sysLogCalls es
  | _ :: es => sysLogCalls es

/-- The publishes made on the queue channel, in order: exchange, routing key, mandatory,
immediate and envelope. -/
def publishes : List Event → List (String × String × Bool × Bool × amqp.Publishing)
  | [] => []
  | .Publish exchange key mandatory immediate msg _ :: es =>
      (exchange, key, mandatory, immediate, msg) :: publishes es
  | _ :: es => publishes es

/-- The `error` a backend call returned; the local log returns none. -/
def Event.ret : Event → Option Error
  | .Printf _ => none
  | .sysLog _ _ ret => ret
  | .Publish _ _ _ _ _ ret => ret

/-! ## Auxiliary lemmas -/

theorem localLines_append (xs ys : List Event) :
    localLines (xs ++ ys) = localLines xs ++ localLines ys := by
  induction xs with
  | nil => rfl
  | cons e es ih => cases e <;> simp [localLines, ih]

theorem sysLogCalls_append (xs ys : List Event) :
    sysLogCalls (xs ++ ys) = sysLogCalls xs ++ sysLogCalls ys := by
  induction xs with
  | nil => rfl
  | cons e es ih => cases e <;> simp [sysLogCalls, ih]

theorem publishes_append (xs ys : List Event) :
    publishes (xs ++ ys) = publishes xs ++ publishes ys := by
  induction xs with
  | nil => rfl
  | cons e es ih => cases e <;> simp [publishes, ih]

theorem mem_severityTable {S : syslog.Priority} {tok : String} {meth : syslog.Method}
    (h : (S, tok, meth) ∈ severityTable) :
    (S = 7 ∧ tok = "DEBUG" ∧ meth = .Debug) ∨ (S = 6 ∧ tok = "INFO" ∧ meth = .Info) ∨
    (S = 5 ∧ tok = "NOTICE" ∧ meth = .Notice) ∨ (S = 4 ∧ tok = "WARNING" ∧ meth = .Warning) ∨
    (S = 3 ∧ tok = "ERR" ∧ meth = .Err) ∨ (S = 2 ∧ tok = "CRIT" ∧ meth = .Crit) ∨
    (S = 1 ∧ tok = "ALERT" ∧ meth = .Alert) ∨ (S = 0 ∧ tok = "EMERG" ∧ meth = .Emerg) := by
  simpa [severityTable] using h

theorem not_mem_severities {S : syslog.Priority} (h : S ∉ severities) :
    S ≠ 7 ∧ S ≠ 6 ∧ S ≠ 5 ∧ S ≠ 4 ∧ S ≠ 3 ∧ S ≠ 2 ∧ S ≠ 1 ∧ S ≠ 0 := by
  simpa [severities, severityTable] using h

theorem priorityString_of_mem {S : syslog.Priority} {tok : String} {meth : syslog.Method}
    (h : (S, tok, meth) ∈ severityTable) : priorityString S = tok := by
  rcases mem_severityTable h with h | h | h | h | h | h | h | h <;>
    obtain ⟨rfl, rfl, rfl⟩ := h <;> rfl

theorem priorityString_of_not_mem {S : syslog.Priority} (h : S ∉ severities) :
    priorityString S = "" := by
  obtain ⟨h7, h6, h5, h4, h3, h2, h1, h0⟩ := not_mem_severities h
  simp [priorityString, h7, h6, h5, h4, h3, h2, h1, h0]

theorem sysLogSwitch_of_mem {S : syslog.Priority} {tok : String} {meth : syslog.Method}
    (h : (S, tok, meth) ∈ severityTable) (w : syslog.Writer) (message : String)
    (st : LogState) :
    sysLogSwitch w S message st =
      (st.1 ++ [Event.sysLog meth message (w.invoke meth message)], w.invoke meth message) := by
  rcases mem_severityTable h with h | h | h | h | h | h | h | h <;>
    obtain ⟨rfl, rfl, rfl⟩ := h <;> rfl

theorem sysLogSwitch_of_not_mem {S : syslog.Priority} (h : S ∉ severities)
    (w : syslog.Writer) (message : String) (st : LogState) :
    sysLogSwitch w S message st = st := by
  obtain ⟨h7, h6, h5, h4, h3, h2, h1, h0⟩ := not_mem_severities h
  simp [sysLogSwitch, h7, h6, h5, h4, h3, h2, h1, h0]

theorem severityName_eq_priorityString (S : syslog.Priority) :
    severityName S = priorityString S := by
  by_cases h : S ∈ severities
  · have h' : S = 7 ∨ S = 6 ∨ S = 5 ∨ S = 4 ∨ S = 3 ∨ S = 2 ∨ S = 1 ∨ S = 0 := by
      simpa [severities, severityTable] using h
    rcases h' with rfl | rfl | rfl | rfl | rfl | rfl | rfl | rfl <;> rfl
  · rw [priorityString_of_not_mem h]
    obtain ⟨h7, h6, h5, h4, h3, h2, h1, h0⟩ := not_mem_severities h
    have e7 : (S == syslog.LOG_DEBUG) = false := by simpa using h7
    have e6 : (S == syslog.LOG_INFO) = false := by simpa using h6
    have e5 : (S == syslog.LOG_NOTICE) = false := by simpa using h5
    have e4 : (S == syslog.LOG_WARNING) = false := by simpa using h4
    have e3 : (S == syslog.LOG_ERR) = false := by simpa using h3
    have e2 : (S == syslog.LOG_CRIT) = false := by simpa using h2
    have e1 : (S == syslog.LOG_ALERT) = false := by simpa using h1
    have e0 : (S == syslog.LOG_EMERG) = false := by simpa using h0
    simp only [severityName, severityTable, List.lookup, e7, e6, e5, e4, e3, e2, e1, e0]

theorem Sprintf_line (a b c : String) :
    fmt.Sprintf "[%s] [%s] %s" [a, b, c] = "[" ++ a ++ "] [" ++ b ++ "] " ++ c := by
  apply String.ext
  simp [fmt.Sprintf, fmt.SprintfChars, fmt.extraOperands]

theorem exists_of_mem_severities {S : syslog.Priority} (h : S ∈ severities) :
    ∃ tok meth, (S, tok, meth) ∈ severityTable := by
  have h' : S = 7 ∨ S = 6 ∨ S = 5 ∨ S = 4 ∨ S = 3 ∨ S = 2 ∨ S = 1 ∨ S = 0 := by
    simpa [severities, severityTable] using h
  rcases h' with rfl | rfl | rfl | rfl | rfl | rfl | rfl | rfl
  · exact ⟨"DEBUG", .Debug, by simp [severityTable]⟩
  · exact ⟨"INFO", .Info, by simp [severityTable]⟩
  · exact ⟨"NOTICE", .Notice, by simp [severityTable]⟩
  · exact ⟨"WARNING", .Warning, by simp [severityTable]⟩
  · exact ⟨"ERR", .Err, by simp [severityTable]⟩
  · exact ⟨"CRIT", .Crit, by simp [severityTable]⟩
  · exact ⟨"ALERT", .Alert, by simp [severityTable]⟩
  · exact ⟨"EMERG", .Emerg, by simp [severityTable]⟩

theorem mem_severities_of_mem {S : syslog.Priority} {tok : String} {meth : syslog.Method}
    (h : (S, tok, meth) ∈ severityTable) : S ∈ severities :=
  List.mem_map.mpr ⟨(S, tok, meth), h, rfl⟩

theorem severityTable_method_inj {S S' : syslog.Priority} {tok tok' : String}
    {meth : syslog.Method} (h : (S, tok, meth) ∈ severityTable)
    (h' : (S', tok', meth) ∈ severityTable) : S = S' := by
  rcases mem_severityTable h with h | h | h | h | h | h | h | h <;>
    obtain ⟨rfl, rfl, rfl⟩ := h <;>
    rcases mem_severityTable h' with h' | h' | h' | h' | h' | h' | h' | h' <;>
    obtain ⟨h1, -, h3⟩ := h' <;> first | exact h1.symm | exact absurd h3 (by decide)

/-- The state after the local-log step, when the local log takes part. -/
theorem goLogStep_on (logger : Logger) {t : Nat} (ps m : String) (st : LogState)
    (hb : t &&& GOLOG ≠ 0) (hg : logger.goLog = true) :
    logger.goLogStep t ps m st =
      (st.1 ++ [Event.Printf ("[" ++ logger.pfx ++ "] [" ++ ps ++ "] " ++ m)], st.2) := by
  rw [Logger.goLogStep, if_pos ⟨hb, hg⟩, Sprintf_line]

/-- The state after the local-log step, when the local log does not take part. -/
theorem goLogStep_off (logger : Logger) {t : Nat} (ps m : String) (st : LogState)
    (h : t &&& GOLOG = 0 ∨ logger.goLog = false) : logger.goLogStep t ps m st = st := by
  rw [Logger.goLogStep, if_neg]
  rintro ⟨hb, hg⟩
  rcases h with h | h
  · exact hb h
  · rw [h] at hg; exact Bool.noConfusion hg

/-- The local-log step only appends local lines and leaves `err` alone. -/
theorem goLogStep_frame (logger : Logger) (t : Nat) (ps m : String) (st : LogState) :
    (logger.goLogStep t ps m st).2 = st.2 ∧
    sysLogCalls (logger.goLogStep t ps m st).1 = sysLogCalls st.1 ∧
    publishes (logger.goLogStep t ps m st).1 = publishes st.1 := by
  unfold Logger.goLogStep
  split <;> simp [sysLogCalls_append, publishes_append, sysLogCalls, publishes]

/-- The state after the system-log step, when the handle is attached, its bit is set and
the severity is one of the eight. -/
theorem sysLogStep_on (logger : Logger) {w : syslog.Writer} {t : Nat} {S : syslog.Priority}
    {tok : String} {meth : syslog.Method} (m : String) (st : LogState)
    (hw : logger.sysLog = some w) (hb : t &&& SYSLOG ≠ 0) (hS : (S, tok, meth) ∈ severityTable) :
    logger.sysLogStep t S m st =
      (st.1 ++ [Event.sysLog meth m (w.invoke meth m)], w.invoke meth m) := by
  simp [Logger.sysLogStep, hw, hb, sysLogSwitch_of_mem hS]

/-- The state after the system-log step, when no call is made. -/
theorem sysLogStep_off (logger : Logger) {t : Nat} {S : syslog.Priority} (m : String)
    (st : LogState) (h : t &&& SYSLOG = 0 ∨ logger.sysLog = none ∨ S ∉ severities) :
    logger.sysLogStep t S m st = st := by
  unfold Logger.sysLogStep
  rcases h with h | h | h
  · cases logger.sysLog <;> simp [h]
  · simp [h]
  · cases logger.sysLog <;> simp [sysLogSwitch_of_not_mem h]

/-- The system-log step either does nothing or appends one call and sets `err` to its
result. -/
theorem sysLogStep_cases (logger : Logger) (t : Nat) (S : syslog.Priority) (m : String)
    (st : LogState) :
    logger.sysLogStep t S m st = st ∨
    ∃ w meth, logger.sysLog = some w ∧ t &&& SYSLOG ≠ 0 ∧
      logger.sysLogStep t S m st =
        (st.1 ++ [Event.sysLog meth m (w.invoke meth m)], w.invoke meth m) := by
  by_cases hS : S ∈ severities
  · obtain ⟨tok, meth, hmem⟩ := exists_of_mem_severities hS
    cases hw : logger.sysLog with
    | none => exact Or.inl (sysLogStep_off logger m st (Or.inr (Or.inl hw)))
    | some w =>
      by_cases hb : t &&& SYSLOG = 0
      · exact Or.inl (sysLogStep_off logger m st (Or.inl hb))
      · exact Or.inr ⟨w, meth, rfl, hb, sysLogStep_on logger m st hw hb hmem⟩
  · exact Or.inl (sysLogStep_off logger m st (Or.inr (Or.inr hS)))

/-- The state after the queue step, when the channel is attached and its bit is set. -/
theorem amqpStep_on (logger : Logger) {ch : amqp.Channel} {t : Nat} (ps m : String)
    (st : LogState) (hc : logger.amqpChannel = some ch) (hb : t &&& AMQP ≠ 0) :
    logger.amqpStep t ps m st =
      (st.1 ++ [Event.Publish "logs" ps false false (publishing m)
          (ch.Publish "logs" ps false false (publishing m))],
        ch.Publish "logs" ps false false (publishing m)) := by
  simp [Logger.amqpStep, hc, hb]

/-- The state after the queue step, when the queue does not take part. -/
theorem amqpStep_off (logger : Logger) {t : Nat} (ps m : String) (st : LogState)
    (h : t &&& AMQP = 0 ∨ logger.amqpChannel = none) : logger.amqpStep t ps m st = st := by
  unfold Logger.amqpStep
  rcases h with h | h
  · cases logger.amqpChannel <;> simp [h]
  · simp [h]

/-- The body of `log` as the composition of its three steps. -/
theorem log_eq (logger : Logger) (t : Nat) (S : syslog.Priority) (m : String) :
    logger.log t S m =
      logger.amqpStep t (priorityString S) m
        (logger.sysLogStep t S m (logger.goLogStep t (priorityString S) m ([], none))) :=
  rfl

/-- The returned value when the queue takes part. -/
theorem log_snd_amqp (logger : Logger) {ch : amqp.Channel} {t : Nat} (S : syslog.Priority)
    (m : String) (hc : logger.amqpChannel = some ch) (hb : t &&& AMQP ≠ 0) :
    (logger.log t S m).2 = ch.Publish "logs" (priorityString S) false false (publishing m) := by
  rw [log_eq, amqpStep_on logger _ m _ hc hb]

/-- The returned value when the queue does not take part and the system log does. -/
theorem log_snd_sysLog (logger : Logger) {w : syslog.Writer} {t : Nat} {S : syslog.Priority}
    {tok : String} {meth : syslog.Method} (m : String)
    (hq : t &&& AMQP = 0 ∨ logger.amqpChannel = none) (hw : logger.sysLog = some w)
    (hb : t &&& SYSLOG ≠ 0) (hS : (S, tok, meth) ∈ severityTable) :
    (logger.log t S m).2 = w.invoke meth m := by
  rw [log_eq, amqpStep_off logger _ m _ hq, sysLogStep_on logger m _ hw hb hS]

/-- The returned value when neither the queue nor the system log is called. -/
theorem log_snd_none (logger : Logger) {t : Nat} {S : syslog.Priority} (m : String)
    (hq : t &&& AMQP = 0 ∨ logger.amqpChannel = none)
    (hs : t &&& SYSLOG = 0 ∨ logger.sysLog = none ∨ S ∉ severities) :
    (logger.log t S m).2 = none := by
  rw [log_eq, amqpStep_off logger _ m _ hq, sysLogStep_off logger m _ hs]
  exact (goLogStep_frame logger t (priorityString S) m ([], none)).1

/-- The returned value depends on the two handles and on the SYSTEM and QUEUE bits only. -/
theorem log_snd_congr (logger logger' : Logger) (t t' : Nat) (S : syslog.Priority)
    (m : String) (hw : logger'.sysLog = logger.sysLog)
    (hc : logger'.amqpChannel = logger.amqpChannel)
    (hs : t' &&& SYSLOG = t &&& SYSLOG) (hq : t' &&& AMQP = t &&& AMQP) :
    (logger'.log t' S m).2 = (logger.log t S m).2 := by
  by_cases hon : t &&& AMQP ≠ 0 ∧ ∃ ch, logger.amqpChannel = some ch
  · obtain ⟨hb, ch, hch⟩ := hon
    rw [log_snd_amqp logger S m hch hb,
      log_snd_amqp logger' S m (hc.trans hch) (by rw [hq]; exact hb)]
  · have hoff : t &&& AMQP = 0 ∨ logger.amqpChannel = none := by
      by_cases hb : t &&& AMQP = 0
      · exact Or.inl hb
      · cases hch : logger.amqpChannel with
        | none => exact Or.inr rfl
        | some ch => exact absurd ⟨hb, ch, hch⟩ hon
    have hoff' : t' &&& AMQP = 0 ∨ logger'.amqpChannel = none := by
      rw [hq, hc]; exact hoff
    by_cases hson : t &&& SYSLOG ≠ 0 ∧ (∃ w, logger.sysLog = some w) ∧ S ∈ severities
    · obtain ⟨hb, ⟨w, hsw⟩, hS⟩ := hson
      obtain ⟨tok, meth, hmem⟩ := exists_of_mem_severities hS
      rw [log_snd_sysLog logger m hoff hsw hb hmem,
        log_snd_sysLog logger' m hoff' (hw.trans hsw) (by rw [hs]; exact hb) hmem]
    · have hsoff : t &&& SYSLOG = 0 ∨ logger.sysLog = none ∨ S ∉ severities := by
        by_cases hb : t &&& SYSLOG = 0
        · exact Or.inl hb
        · by_cases hS : S ∈ severities
          · cases hsw : logger.sysLog with
            | none => exact Or.inr (Or.inl rfl)
            | some w => exact absurd ⟨hb, ⟨w, hsw⟩, hS⟩ hson
          · exact Or.inr (Or.inr hS)
      have hsoff' : t' &&& SYSLOG = 0 ∨ logger'.sysLog = none ∨ S ∉ severities := by
        rw [hs, hw]; exact hsoff
      rw [log_snd_none logger m hoff hsoff, log_snd_none logger' m hoff' hsoff']

/-- The line of the local log when the name token is empty. -/
theorem line_empty_token (p m : String) :
    "[" ++ p ++ "] [" ++ "" ++ "] " ++ m = "[" ++ p ++ "] [] " ++ m := by
  apply String.ext
  simp

/-! ## Concrete configurations -/

/-- A system-log handle every call on which fails. -/
def brokenWriter : syslog.Writer :=
  { Debug := fun _ => some "syslog: connection refused",
    Info := fun _ => some "syslog: connection refused",
    Notice := fun _ => some "syslog: connection refused",
    Warning := fun _ => some "syslog: connection refused",
    Err := fun _ => some "syslog: connection refused",
    Crit := fun _ => some "syslog: connection refused",
    Alert := fun _ => some "syslog: connection refused",
    Emerg := fun _ => some "syslog: connection refused" }

/-- A system-log handle every call on which succeeds. -/
def healthyWriter : syslog.Writer :=
  { Debug := fun _ => none,
    Info := fun _ => none,
    Notice := fun _ => none,
    Warning := fun _ => none,
    Err := fun _ => none,
    Crit := fun _ => none,
    Alert := fun _ => none,
    Emerg := fun _ => none }

/-- A queue channel every publish on which succeeds. -/
def healthyChannel : amqp.Channel :=
  { Publish := fun _ _ _ _ _ => none }

/-- A queue channel every publish on which fails. -/
def closedChannel : amqp.Channel :=
  { Publish := fun _ _ _ _ _ => some "amqp: channel closed" }

/-- The logger `app` with the local log enabled and no handle attached. -/
def appLogger : Logger :=
  (Logger.zero.Init "app").EnableGoLog true

/-! ## C1 -/

/-- C1, the claim as stated fails: with a failing system-log handle and a queue channel
whose publish succeeds both attached, `Err(ALL, "disk full")` makes the failing call
`sysLog.Err("disk full")`, then the successful publish overwrites `err`, and `log`
returns nil instead of the system-log error. -/
theorem log_ALL_sysLog_error_overwritten :
    ((appLogger.SetSyslog (some brokenWriter)).SetAmqp (some healthyChannel)).sysLog
        = some brokenWriter ∧
    ALL &&& SYSLOG ≠ 0 ∧
    (syslog.LOG_ERR, "ERR", syslog.Method.Err) ∈ severityTable ∧
    brokenWriter.invoke .Err "disk full" = some "syslog: connection refused" ∧
    ((appLogger.SetSyslog (some brokenWriter)).SetAmqp (some healthyChannel)).amqpChannel
        = some healthyChannel ∧
    healthyChannel.Publish "logs" "ERR" false false (publishing "disk full") = none ∧
    sysLogCalls (((appLogger.SetSyslog (some brokenWriter)).SetAmqp (some healthyChannel)).log
        ALL syslog.LOG_ERR "disk full").1 = [(.Err, "disk full")] ∧
    (((appLogger.SetSyslog (some brokenWriter)).SetAmqp (some healthyChannel)).log
        ALL syslog.LOG_ERR "disk full").2 = none ∧
    (((appLogger.SetSyslog (some brokenWriter)).SetAmqp (some healthyChannel)).log
        ALL syslog.LOG_ERR "disk full").2 ≠ some "syslog: connection refused" := by
  refine ⟨rfl, by decide, by simp [severityTable], rfl, rfl, rfl, ?_, ?_, ?_⟩
  · rfl
  · rfl
  · intro h; cases h

/-- C1, amended: if the system-log backend is attached, its bit is set in the mask, the
severity is one of the eight and the matching call fails with `e`, and the queue backend
does not take part in the call (its bit is clear or no channel is attached), then `log`
returns the system-log error `e`. -/
theorem log_returns_sysLog_error (logger : Logger) (w : syslog.Writer) (t : Nat)
    (S : syslog.Priority) (tok : String) (meth : syslog.Method) (m : String) (e : Error)
    (hw : logger.sysLog = some w) (hb : t &&& SYSLOG ≠ 0)
    (hS : (S, tok, meth) ∈ severityTable) (hfail : w.invoke meth m = some e)
    (hq : t &&& AMQP = 0 ∨ logger.amqpChannel = none) :
    (logger.log t S m).2 = some e := by
  rw [log_eq, amqpStep_off logger _ m _ hq, sysLogStep_on logger m _ hw hb hS, hfail]

/-- C1, amended, at a concrete input: the failing handle, no queue channel, mask `ALL`. -/
theorem log_returns_sysLog_error_witness :
    (appLogger.SetSyslog (some brokenWriter)).sysLog = some brokenWriter ∧
    ALL &&& SYSLOG ≠ 0 ∧
    (syslog.LOG_ERR, "ERR", syslog.Method.Err) ∈ severityTable ∧
    brokenWriter.invoke .Err "disk full" = some "syslog: connection refused" ∧
    (ALL &&& AMQP = 0 ∨ (appLogger.SetSyslog (some brokenWriter)).amqpChannel = none) ∧
    ((appLogger.SetSyslog (some brokenWriter)).log ALL syslog.LOG_ERR "disk full").2
      = some "syslog: connection refused" :=
  ⟨rfl, by decide, by simp [severityTable], rfl, Or.inr rfl,
    log_returns_sysLog_error (appLogger.SetSyslog (some brokenWriter)) brokenWriter ALL
      syslog.LOG_ERR "ERR" .Err "disk full" "syslog: connection refused" rfl (by decide)
      (by simp [severityTable]) rfl (Or.inr rfl)⟩

/-! ## C2 -/

/-- C2: a backend whose bit is clear in the mask, or that is disabled (local log) or
unattached (system log, queue), receives no call during a `log` call, for every mask,
configuration, severity and message. -/
theorem log_skips_unselected_backends (logger : Logger) (t : Nat) (S : syslog.Priority)
    (m : String) :
    ((t &&& GOLOG = 0 ∨ logger.goLog = false) → localLines (logger.log t S m).1 = []) ∧
    ((t &&& SYSLOG = 0 ∨ logger.sysLog = none) → sysLogCalls (logger.log t S m).1 = []) ∧
    ((t &&& AMQP = 0 ∨ logger.amqpChannel = none) → publishes (logger.log t S m).1 = []) := by
  refine ⟨fun h => ?_, fun h => ?_, fun h => ?_⟩
  · rw [log_eq, goLogStep_off logger _ m _ h]
    rcases sysLogStep_cases logger t S m ([], none) with hs | ⟨w, meth, -, -, hs⟩ <;> rw [hs] <;>
      cases hc : logger.amqpChannel <;> by_cases hb : t &&& AMQP = 0 <;>
      simp [Logger.amqpStep, hc, hb, localLines_append, localLines]
  · have hs : ∀ st, logger.sysLogStep t S m st = st := fun st =>
      sysLogStep_off logger m st (h.elim Or.inl fun h => Or.inr (Or.inl h))
    rw [log_eq, hs]
    have hg := (goLogStep_frame logger t (priorityString S) m ([], none)).2.1
    cases hc : logger.amqpChannel <;> by_cases hb : t &&& AMQP = 0 <;>
      simp [Logger.amqpStep, hc, hb, sysLogCalls_append, sysLogCalls, hg]
  · rw [log_eq, amqpStep_off logger _ m _ h]
    have hg := (goLogStep_frame logger t (priorityString S) m ([], none)).2.2
    rcases sysLogStep_cases logger t S m (logger.goLogStep t (priorityString S) m ([], none))
      with hs | ⟨w, meth, -, -, hs⟩ <;> rw [hs] <;>
      simp [publishes_append, publishes, hg]

/-- C2 at concrete inputs: mask `SYSLOG ||| AMQP` on a logger with everything attached
leaves the local log alone; mask `ALL` on a logger with nothing attached calls nothing. -/
theorem log_skips_unselected_backends_witness :
    localLines ((((appLogger.SetSyslog (some healthyWriter)).SetAmqp (some healthyChannel)).log
      6 syslog.LOG_INFO "started").1) = [] ∧
    sysLogCalls ((Logger.zero.log ALL syslog.LOG_INFO "started").1) = [] ∧
    publishes ((Logger.zero.log ALL syslog.LOG_INFO "started").1) = [] :=
  ⟨(log_skips_unselected_backends
      ((appLogger.SetSyslog (some healthyWriter)).SetAmqp (some healthyChannel)) 6
      syslog.LOG_INFO "started").1 (Or.inl (by decide)),
    (log_skips_unselected_backends Logger.zero ALL syslog.LOG_INFO "started").2.1
      (Or.inr rfl),
    (log_skips_unselected_backends Logger.zero ALL syslog.LOG_INFO "started").2.2
      (Or.inr rfl)⟩

/-! ## C3 -/

/-- C3: if the system-log backend and the queue backend are both attempted in one `log`
call (both bits set, both attached, a severity among the eight) and both calls fail,
`log` returns a non-nil error, and it is the error of the publish, the last backend
attempted; it is the system-log error only if the two errors are the same value. -/
theorem log_both_fail_returns_publish_error (logger : Logger) (w : syslog.Writer)
    (ch : amqp.Channel) (t : Nat) (S : syslog.Priority) (tok : String) (meth : syslog.Method)
    (m : String) (e₁ e₂ : Error)
    (hw : logger.sysLog = some w) (hc : logger.amqpChannel = some ch)
    (hbs : t &&& SYSLOG ≠ 0) (hbq : t &&& AMQP ≠ 0)
    (hS : (S, tok, meth) ∈ severityTable)
    (hfail₁ : w.invoke meth m = some e₁)
    (hfail₂ : ch.Publish "logs" tok false false
      { Headers := [], ContentType := "text/plain", ContentEncoding := "",
        Body := m.toUTF8.data.toList, DeliveryMode := amqp.Transient, Priority := 0 }
      = some e₂) :
    (logger.log t S m).2 ≠ none ∧
    (logger.log t S m).2 = some e₂ ∧
    (e₁ ≠ e₂ → (logger.log t S m).2 ≠ some e₁) ∧
    Event.sysLog meth m (some e₁) ∈ (logger.log t S m).1 := by
  have hp : priorityString S = tok := priorityString_of_mem hS
  have hr : (logger.log t S m).2 = some e₂ := by
    rw [log_eq, amqpStep_on logger _ m _ hc hbq, hp]
    exact hfail₂
  refine ⟨by rw [hr]; exact Option.some_ne_none _, hr, fun hne => ?_, ?_⟩
  · rw [hr]
    intro h
    exact hne (Option.some.inj h).symm
  · rw [log_eq, amqpStep_on logger _ m _ hc hbq, sysLogStep_on logger m _ hw hbs hS, hfail₁]
    simp

/-- C3 at a concrete input: failing handle and failing channel, mask `ALL`. -/
theorem log_both_fail_returns_publish_error_witness :
    ((appLogger.SetSyslog (some brokenWriter)).SetAmqp (some closedChannel)).sysLog
      = some brokenWriter ∧
    ((appLogger.SetSyslog (some brokenWriter)).SetAmqp (some closedChannel)).amqpChannel
      = some closedChannel ∧
    ALL &&& SYSLOG ≠ 0 ∧ ALL &&& AMQP ≠ 0 ∧
    (syslog.LOG_CRIT, "CRIT", syslog.Method.Crit) ∈ severityTable ∧
    brokenWriter.invoke .Crit "raid degraded" = some "syslog: connection refused" ∧
    (((appLogger.SetSyslog (some brokenWriter)).SetAmqp (some closedChannel)).log ALL
      syslog.LOG_CRIT "raid degraded").2 = some "amqp: channel closed" :=
  ⟨rfl, rfl, by decide, by decide, by simp [severityTable], rfl,
    (log_both_fail_returns_publish_error
      ((appLogger.SetSyslog (some brokenWriter)).SetAmqp (some closedChannel)) brokenWriter
      closedChannel ALL syslog.LOG_CRIT "CRIT" .Crit "raid degraded"
      "syslog: connection refused" "amqp: channel closed" rfl rfl (by decide) (by decide)
      (by simp [severityTable]) rfl rfl).2.1⟩

/-! ## C4 -/

/-- C4: if no backend call made during a `log` call returns an error, `log` returns nil,
whatever the mask, the configuration, the severity and the message, also when backends
the mask selects are skipped for being disabled or unattached; and `log(0, S, msg)` makes
no backend call and returns nil. -/
theorem log_success_when_no_call_fails (logger : Logger) (t : Nat) (S : syslog.Priority)
    (m : String) :
    ((∀ ev ∈ (logger.log t S m).1, ev.ret = none) → (logger.log t S m).2 = none) ∧
    logger.log 0 S m = ([], none) := by
  constructor
  · intro h
    have hg := (goLogStep_frame logger t (priorityString S) m ([], none)).1
    rw [log_eq] at h ⊢
    cases hc : logger.amqpChannel with
    | some ch =>
      by_cases hb : t &&& AMQP = 0
      · rw [amqpStep_off logger _ m _ (Or.inl hb)] at h ⊢
        rcases sysLogStep_cases logger t S m (logger.goLogStep t (priorityString S) m ([], none))
          with hs | ⟨w, meth, -, -, hs⟩
        · rw [hs]; exact hg
        · rw [hs] at h ⊢
          exact h (Event.sysLog meth m (w.invoke meth m)) (by simp)
      · rw [amqpStep_on logger _ m _ hc hb] at h ⊢
        exact h (Event.Publish "logs" (priorityString S) false false (publishing m)
          (ch.Publish "logs" (priorityString S) false false (publishing m))) (by simp)
    | none =>
      rw [amqpStep_off logger _ m _ (Or.inr hc)] at h ⊢
      rcases sysLogStep_cases logger t S m (logger.goLogStep t (priorityString S) m ([], none))
        with hs | ⟨w, meth, -, -, hs⟩
      · rw [hs]; exact hg
      · rw [hs] at h ⊢
        exact h (Event.sysLog meth m (w.invoke meth m)) (by simp)
  · rw [log_eq, amqpStep_off logger _ m _ (Or.inl (Nat.zero_and _)),
      sysLogStep_off logger m _ (Or.inl (Nat.zero_and _)),
      goLogStep_off logger _ m _ (Or.inl (Nat.zero_and _))]

/-- C4 at a concrete input: mask `ALL`, local log enabled, a healthy system-log handle and
no queue channel: the queue is skipped, no call fails, and `log` returns nil. -/
theorem log_success_when_no_call_fails_witness :
    ((appLogger.SetSyslog (some healthyWriter)).log ALL syslog.LOG_NOTICE "rotated").1
      = [Event.Printf "[app] [NOTICE] rotated", Event.sysLog .Notice "rotated" none] ∧
    ((appLogger.SetSyslog (some healthyWriter)).log ALL syslog.LOG_NOTICE "rotated").2
      = none :=
  ⟨by decide,
    (log_success_when_no_call_fails (appLogger.SetSyslog (some healthyWriter)) ALL
      syslog.LOG_NOTICE "rotated").1 (by decide)⟩

/-! ## C5 -/

/-- C5: for each of the eight severities `S` with name token `tok` ("DEBUG", "INFO",
"NOTICE", "WARNING", "ERR", "CRIT", "ALERT", "EMERG"), every prefix and every message, a
`log` call with the LOCAL bit set and the local log enabled hands the local log sink
exactly one line, `"[" ++ prefix ++ "] [" ++ tok ++ "] " ++ message`. -/
theorem log_local_line (logger : Logger) (t : Nat) (S : syslog.Priority) (tok : String)
    (meth : syslog.Method) (m : String)
    (hS : (S, tok, meth) ∈ severityTable) (hb : t &&& GOLOG ≠ 0) (hg : logger.goLog = true) :
    localLines (logger.log t S m).1 = ["[" ++ logger.pfx ++ "] [" ++ tok ++ "] " ++ m] := by
  rw [log_eq, goLogStep_on logger _ m _ hb hg, priorityString_of_mem hS]
  rcases sysLogStep_cases logger t S m
      ([] ++ [Event.Printf ("[" ++ logger.pfx ++ "] [" ++ tok ++ "] " ++ m)], none)
    with hs | ⟨w, meth', -, -, hs⟩ <;> rw [hs] <;>
    cases hc : logger.amqpChannel <;> by_cases hq : t &&& AMQP = 0 <;>
    simp [Logger.amqpStep, hc, hq, localLines_append, localLines]

/-- C5 at a concrete input: a message that itself holds a formatting verb reaches the
sink unchanged. -/
theorem log_local_line_witness :
    (syslog.LOG_WARNING, "WARNING", syslog.Method.Warning) ∈ severityTable ∧
    GOLOG &&& GOLOG ≠ 0 ∧ appLogger.goLog = true ∧
    localLines (appLogger.log GOLOG syslog.LOG_WARNING "disk 91% full %s").1
      = ["[app] [WARNING] disk 91% full %s"] :=
  ⟨by simp [severityTable], by decide, rfl,
    log_local_line appLogger GOLOG syslog.LOG_WARNING "WARNING" .Warning "disk 91% full %s"
      (by simp [severityTable]) (by decide) rfl⟩

/-! ## C6 -/

/-- C6: for each of the eight severities `S` with matching entry point `meth` (Debug for
DEBUG, Info for INFO, Notice for NOTICE, Warning for WARNING, Err for ERR, Crit for CRIT,
Alert for ALERT, Emerg for EMERG) and every message, a `log` call with the SYSTEM bit set
and a system-log handle attached makes exactly one call on the handle, the call of `meth`
with the message unchanged; and two distinct severities among the eight reach distinct
entry points. -/
theorem log_sysLog_call (logger : Logger) (w : syslog.Writer) (t : Nat)
    (S : syslog.Priority) (tok : String) (meth : syslog.Method) (m : String)
    (hw : logger.sysLog = some w) (hb : t &&& SYSLOG ≠ 0)
    (hS : (S, tok, meth) ∈ severityTable) :
    sysLogCalls (logger.log t S m).1 = [(meth, m)] ∧
    ∀ S' m', S' ∈ severities → S' ≠ S →
      (sysLogCalls (logger.log t S' m').1).map Prod.fst
        ≠ (sysLogCalls (logger.log t S m).1).map Prod.fst := by
  have key : ∀ (S₀ : syslog.Priority) (tok₀ : String) (meth₀ : syslog.Method) (m₀ : String),
      (S₀, tok₀, meth₀) ∈ severityTable →
      sysLogCalls (logger.log t S₀ m₀).1 = [(meth₀, m₀)] := by
    intro S₀ tok₀ meth₀ m₀ h₀
    have hg := (goLogStep_frame logger t (priorityString S₀) m₀ ([], none)).2.1
    rw [log_eq, sysLogStep_on logger m₀ _ hw hb h₀]
    cases hc : logger.amqpChannel <;> by_cases hq : t &&& AMQP = 0 <;>
      simp [Logger.amqpStep, hc, hq, sysLogCalls_append, sysLogCalls, hg]
  refine ⟨key S tok meth m hS, fun S' m' hS' hne => ?_⟩
  obtain ⟨tok', meth', hmem'⟩ := exists_of_mem_severities hS'
  rw [key S tok meth m hS, key S' tok' meth' m' hmem']
  intro h
  have hm : meth' = meth := by simpa using h
  subst hm
  exact hne (severityTable_method_inj hmem' hS)

/-- C6 at a concrete input: an ALERT call with mask `SYSLOG` calls `Alert` once. -/
theorem log_sysLog_call_witness :
    (appLogger.SetSyslog (some healthyWriter)).sysLog = some healthyWriter ∧
    SYSLOG &&& SYSLOG ≠ 0 ∧
    (syslog.LOG_ALERT, "ALERT", syslog.Method.Alert) ∈ severityTable ∧
    sysLogCalls ((appLogger.SetSyslog (some healthyWriter)).log SYSLOG syslog.LOG_ALERT
      "fan failure").1 = [(.Alert, "fan failure")] :=
  ⟨rfl, by decide, by simp [severityTable],
    (log_sysLog_call (appLogger.SetSyslog (some healthyWriter)) healthyWriter SYSLOG
      syslog.LOG_ALERT "ALERT" .Alert "fan failure" rfl (by decide)
      (by simp [severityTable])).1⟩

/-! ## C7 -/

/-- C7: for every severity and every message, a `log` call with the QUEUE bit set and a
queue channel attached performs exactly one publish: exchange "logs", routing key the
severity's name token, mandatory and immediate false, and an envelope with empty headers,
content type "text/plain", empty content encoding, the transient (non-persistent)
delivery mode, priority 0 and the bytes of the message as body; for a DEBUG call the
routing key is "DEBUG". -/
theorem log_publish_envelope (logger : Logger) (ch : amqp.Channel) (t : Nat)
    (S : syslog.Priority) (m : String)
    (hc : logger.amqpChannel = some ch) (hb : t &&& AMQP ≠ 0) :
    publishes (logger.log t S m).1 =
      [("logs", severityName S, false, false,
        { Headers := [], ContentType := "text/plain", ContentEncoding := "",
          Body := m.toUTF8.data.toList, DeliveryMode := amqp.Transient, Priority := 0 })] ∧
    severityName syslog.LOG_DEBUG = "DEBUG" ∧
    amqp.Transient ≠ amqp.Persistent := by
  refine ⟨?_, rfl, by decide⟩
  rw [log_eq, amqpStep_on logger _ m _ hc hb, severityName_eq_priorityString]
  have hg := (goLogStep_frame logger t (priorityString S) m ([], none)).2.2
  rcases sysLogStep_cases logger t S m (logger.goLogStep t (priorityString S) m ([], none))
    with hs | ⟨w, meth, -, -, hs⟩ <;> rw [hs] <;>
    simp [publishes_append, publishes, hg, publishing]

/-- C7 at a concrete input: the DEBUG call of the specification, mask `AMQP`. -/
theorem log_publish_envelope_witness :
    (appLogger.SetAmqp (some healthyChannel)).amqpChannel = some healthyChannel ∧
    AMQP &&& AMQP ≠ 0 ∧
    publishes ((appLogger.SetAmqp (some healthyChannel)).log AMQP syslog.LOG_DEBUG "hi").1 =
      [("logs", "DEBUG", false, false,
        { Headers := [], ContentType := "text/plain", ContentEncoding := "",
          Body := [104, 105], DeliveryMode := 1, Priority := 0 })] :=
  ⟨rfl, by decide,
    (log_publish_envelope (appLogger.SetAmqp (some healthyChannel)) healthyChannel AMQP
      syslog.LOG_DEBUG "hi" rfl (by decide)).1⟩

/-! ## C8 -/

/-- C8: each of the eight plain entry points is `log` at its own severity, with the mask
and the message unchanged (same backend calls, same returned error); and each formatted
entry point is the plain one applied to the string `Sprintf format a`. -/
theorem entry_points_dispatch {α : Type} (Sprintf : String → List α → String)
    (logger : Logger) (t : Nat) (m format : String) (a : List α) :
    (logger.Debug t m = logger.log t syslog.LOG_DEBUG m ∧
      logger.Info t m = logger.log t syslog.LOG_INFO m ∧
      logger.Notice t m = logger.log t syslog.LOG_NOTICE m ∧
      logger.Warning t m = logger.log t syslog.LOG_WARNING m ∧
      logger.Err t m = logger.log t syslog.LOG_ERR m ∧
      logger.Crit t m = logger.log t syslog.LOG_CRIT m ∧
      logger.Alert t m = logger.log t syslog.LOG_ALERT m ∧
      logger.Emerg t m = logger.log t syslog.LOG_EMERG m) ∧
    (logger.Debugf Sprintf t format a = logger.Debug t (Sprintf format a) ∧
      logger.Infof Sprintf t format a = logger.Info t (Sprintf format a) ∧
      logger.Noticef Sprintf t format a = logger.Notice t (Sprintf format a) ∧
      logger.Warningf Sprintf t format a = logger.Warning t (Sprintf format a) ∧
      logger.Errf Sprintf t format a = logger.Err t (Sprintf format a) ∧
      logger.Critf Sprintf t format a = logger.Crit t (Sprintf format a) ∧
      logger.Alertf Sprintf t format a = logger.Alert t (Sprintf format a) ∧
      logger.Emergf Sprintf t format a = logger.Emerg t (Sprintf format a)) :=
  ⟨⟨rfl, rfl, rfl, rfl, rfl, rfl, rfl, rfl⟩, ⟨rfl, rfl, rfl, rfl, rfl, rfl, rfl, rfl⟩⟩

/-! ## C9 -/

/-- C9: a severity value that is not one of the eight has the empty name token and does
not abort dispatch: with the LOCAL and QUEUE bits set, the local log enabled and a queue
channel attached, the local sink receives `"[" ++ prefix ++ "] [] " ++ message`, the queue
receives one publish with routing key "" and the message as body, no error is raised by
the severity (the result is that of the publish), and `log` returns nil when the publish
succeeds. -/
theorem log_unrecognised_severity (logger : Logger) (ch : amqp.Channel) (t : Nat)
    (S : syslog.Priority) (m : String)
    (hS : S ∉ severities) (hl : t &&& GOLOG ≠ 0) (hg : logger.goLog = true)
    (hq : t &&& AMQP ≠ 0) (hc : logger.amqpChannel = some ch) :
    priorityString S = "" ∧
    (logger.log t S m).1 =
      [Event.Printf ("[" ++ logger.pfx ++ "] [] " ++ m),
        Event.Publish "logs" "" false false
          { Headers := [], ContentType := "text/plain", ContentEncoding := "",
            Body := m.toUTF8.data.toList, DeliveryMode := amqp.Transient, Priority := 0 }
          (ch.Publish "logs" "" false false (publishing m))] ∧
    (logger.log t S m).2 = ch.Publish "logs" "" false false (publishing m) ∧
    (ch.Publish "logs" "" false false (publishing m) = none → (logger.log t S m).2 = none) := by
  have hp : priorityString S = "" := priorityString_of_not_mem hS
  have hlog : logger.log t S m =
      ([Event.Printf ("[" ++ logger.pfx ++ "] [] " ++ m),
        Event.Publish "logs" "" false false (publishing m)
          (ch.Publish "logs" "" false false (publishing m))],
        ch.Publish "logs" "" false false (publishing m)) := by
    rw [log_eq, amqpStep_on logger _ m _ hc hq,
      sysLogStep_off logger m _ (Or.inr (Or.inr hS)), goLogStep_on logger _ m _ hl hg, hp,
      line_empty_token]
    rfl
  refine ⟨hp, ?_, ?_, fun h => ?_⟩
  · rw [hlog]; rfl
  · rw [hlog]
  · rw [hlog]; exact h

/-- C9 at a concrete input: the facility constant `LOG_USER` (8) passed as severity, mask
`ALL`, with a system-log handle attached too: no system-log call is made. -/
theorem log_unrecognised_severity_witness :
    (8 : syslog.Priority) ∉ severities ∧ ALL &&& GOLOG ≠ 0 ∧ ALL &&& AMQP ≠ 0 ∧
    (((appLogger.SetSyslog (some brokenWriter)).SetAmqp (some healthyChannel)).log ALL 8
      "boot").1 =
      [Event.Printf "[app] [] boot",
        Event.Publish "logs" "" false false
          { Headers := [], ContentType := "text/plain", ContentEncoding := "",
            Body := [98, 111, 111, 116], DeliveryMode := 1, Priority := 0 } none] ∧
    (((appLogger.SetSyslog (some brokenWriter)).SetAmqp (some healthyChannel)).log ALL 8
      "boot").2 = none :=
  ⟨by decide, by decide, by decide,
    (log_unrecognised_severity
      ((appLogger.SetSyslog (some brokenWriter)).SetAmqp (some healthyChannel))
      healthyChannel ALL 8 "boot" (by decide) (by decide) rfl (by decide) rfl).2.1,
    (log_unrecognised_severity
      ((appLogger.SetSyslog (some brokenWriter)).SetAmqp (some healthyChannel))
      healthyChannel ALL 8 "boot" (by decide) (by decide) rfl (by decide) rfl).2.2.2 rfl⟩

/-! ## C10 -/

/-- C10: the value returned by `log` is that of the last backend that takes part.  If the
queue takes part (QUEUE bit set, channel attached) it is exactly the result of the
publish, whatever the system-log call returned; otherwise, if the system log takes part
(SYSTEM bit set, handle attached) with one of the eight severities, it is exactly the
result of the matching system-log call; otherwise it is nil.  The local log never
influences it: two calls that agree on the two handles and on the SYSTEM and QUEUE bits
return the same value, whatever the LOCAL bit, the local-log flag and the prefix. -/
theorem log_result_of_last_backend (logger : Logger) (t : Nat) (S : syslog.Priority)
    (m : String) :
    (∀ ch, logger.amqpChannel = some ch → t &&& AMQP ≠ 0 →
      (logger.log t S m).2 = ch.Publish "logs" (severityName S) false false (publishing m)) ∧
    ((t &&& AMQP = 0 ∨ logger.amqpChannel = none) →
      ∀ w tok meth, logger.sysLog = some w → t &&& SYSLOG ≠ 0 →
        (S, tok, meth) ∈ severityTable → (logger.log t S m).2 = w.invoke meth m) ∧
    ((t &&& AMQP = 0 ∨ logger.amqpChannel = none) →
      (t &&& SYSLOG = 0 ∨ logger.sysLog = none ∨ S ∉ severities) →
        (logger.log t S m).2 = none) ∧
    (∀ (t' : Nat) (pfx : String) (golog : Bool),
      t' &&& SYSLOG = t &&& SYSLOG → t' &&& AMQP = t &&& AMQP →
        (((logger.Init pfx).EnableGoLog golog).log t' S m).2 = (logger.log t S m).2) := by
  refine ⟨fun ch hc hb => ?_, fun hq w tok meth hw hb hS => ?_, fun hq hs => ?_,
    fun t' pfx golog hs hq => ?_⟩
  · rw [log_snd_amqp logger S m hc hb, severityName_eq_priorityString]
  · exact log_snd_sysLog logger m hq hw hb hS
  · exact log_snd_none logger m hq hs
  · exact log_snd_congr logger ((logger.Init pfx).EnableGoLog golog) t t' S m rfl rfl hs hq

/-- C10 at a concrete input: with mask `ALL`, a failing system-log handle and a channel
whose publish succeeds, `log` returns nil; with no channel it returns the system-log
error; with nothing attached it returns nil. -/
theorem log_result_of_last_backend_witness :
    (((appLogger.SetSyslog (some brokenWriter)).SetAmqp (some healthyChannel)).log ALL
      syslog.LOG_EMERG "halt").2 = none ∧
    ((appLogger.SetSyslog (some brokenWriter)).log ALL syslog.LOG_EMERG "halt").2
      = some "syslog: connection refused" ∧
    (appLogger.log ALL syslog.LOG_EMERG "halt").2 = none :=
  ⟨(log_result_of_last_backend
      ((appLogger.SetSyslog (some brokenWriter)).SetAmqp (some healthyChannel)) ALL
      syslog.LOG_EMERG "halt").1 healthyChannel rfl (by decide),
    (log_result_of_last_backend (appLogger.SetSyslog (some brokenWriter)) ALL
      syslog.LOG_EMERG "halt").2.1 (Or.inr rfl) brokenWriter "EMERG" .Emerg rfl (by decide)
      (by simp [severityTable]),
    (log_result_of_last_backend appLogger ALL syslog.LOG_EMERG "halt").2.2.1 (Or.inr rfl)
      (Or.inr (Or.inl rfl))⟩

end logger
